import Mathlib

/-
Shallow embedding of the target-agnostic USB device controller driver (dcd)
from src/machine/usb/dcd.go.

Machine integers are modelled as Nat with explicit masking (`&&& 0xFF`,
`% 256`, ...) exactly where the Go code masks or casts.  The Go `int` type
(used for the class config index) is modelled as Int.  HAL (dhw) methods do
not belong to this unit; each call the core makes into the HAL is recorded
as an element of a call trace (`halCall`).  Mutation of the per-class
descriptor tables (`descCDCACM`, `descHID`), which live outside this source
file and are supplied by the integrator, is not tracked across calls; the
tables are parameters of the model (structure `Env`).
-/

/-- Device controller state, from the `dcdState` enumeration in dcd.go. -/
inductive dcdState where
  | notReady
  | default
  | addressed
  | configured
  | suspended
deriving DecidableEq, Repr, Fintype

/-- Control transfer stage, from the `dcdStage` enumeration in dcd.go. -/
inductive dcdStage where
  | setup
  | dataIn
  | dataOut
  | statusIn
  | statusOut
  | stall
deriving DecidableEq, Repr, Fintype

/-- Modelled from the spec: the device class identifier carried in the class
binding.  The `class` type itself is declared outside src/; the spec pins the
device-mode ids to CDC-ACM and HID. -/
inductive classID where
  | cdcacm
  | hid
deriving DecidableEq, Repr, Fintype

/-- Modelled from the spec: the class binding `{id, config}` (Go type `class`,
declared outside src/).  `config` is a Go `int`, hence `Int` here. -/
structure deviceClass where
  id : classID
  config : Int
deriving DecidableEq, Repr

/-- Status codes returned by `initDCD` (Go type `status`, declared outside
src/; the spec gives OK / Invalid / Busy). -/
inductive status where
  | ok
  | invalid
  | busy
deriving DecidableEq, Repr

/-- Abstract memory addresses handed to the HAL.  The core only ever passes
the null pointer, a HAL status scratch, or one of the per-class scratch
buffers (`cx` control scratch, `dx` descriptor transmit scratch). -/
inductive ptr where
  | null
  | statusBuf (bytes : List Nat)
  | cdcCx (cfg : Int)
  | hidCx (cfg : Int)
  | cdcDx (cfg : Int)
  | hidDx (cfg : Int)
deriving DecidableEq, Repr

/-- One call made by the core into the HAL (dhw) layer, with its arguments. -/
inductive halCall where
  | controlTransmit (p : ptr) (len : Nat) (zlp : Bool)
  | controlReceive (p : ptr) (len : Nat) (notify : Bool)
  | controlStall (enable : Bool) (dir : Nat)
  | setDeviceAddress (addr : Nat)
  | endpointEnable (ep : Nat) (dirIn : Bool) (size : Nat)
  | endpointClearFeature (ep : Nat)
  | endpointSetFeature (ep : Nat)
  | endpointStatusQuery (ep : Nat)
  | controlStatusBuffer (bytes : List Nat)
  | flushCache (p : ptr) (len : Nat)
  | uartConfigure
  | serialConfigure
  | keyboardConfigure
  | mouseConfigure
  | joystickConfigure
  | uartSetLineCoding (bytes : List Nat)
  | uartSetLineState (v : Nat)
  | enableSOF (enable : Bool) (ifcCount : Nat)
deriving DecidableEq, Repr

/-- Whether a HAL call is one of the two control-plane data actions
(`control_transmit` / `control_receive`). -/
def isTxRx : halCall → Bool
  | .controlTransmit _ _ _ => true
  | .controlReceive _ _ _ => true
  | _ => false

/-- Number of `control_transmit` / `control_receive` calls in a trace. -/
def countTxRx (l : List halCall) : Nat := (l.filter isTxRx).length

/-- Whether a HAL call is a `control_stall`. -/
def isStall : halCall → Bool
  | .controlStall _ _ => true
  | _ => false

/-- Number of `control_stall` calls in a trace. -/
def countStall (l : List halCall) : Nat := (l.filter isStall).length

-- Request-type decoding constants.  These `descRequestType*` /
-- `descRequest*` / `descCDCRequest*` / `descHIDRequest*` / `descType*` /
-- `descLength*` constants are declared outside src/ (in the descriptor
-- unit); their values are modelled from the spec, which fixes the
-- bmRequestType bit layout (direction = bit 7, type = bits 5..6,
-- recipient = bits 0..4), the bRequest codes, the descriptor type codes,
-- and the fixed descriptor lengths (device 18, qualifier 10, CDC line
-- coding 7).

/-- Modelled from the spec: direction mask, bit 7 of bmRequestType. -/
@[simp] def descRequestTypeDirMsk : Nat := 0x80

/-- Modelled from the spec: direction bit position. -/
@[simp] def descRequestTypeDirPos : Nat := 7

/-- Modelled from the spec: direction OUT (host to device). -/
@[simp] def descRequestTypeDirOut : Nat := 0x00

/-- Modelled from the spec: direction IN (device to host). -/
@[simp] def descRequestTypeDirIn : Nat := 0x80

/-- Modelled from the spec: request type mask, bits 5..6. -/
@[simp] def descRequestTypeTypeMsk : Nat := 0x60

/-- Modelled from the spec: standard request type. -/
@[simp] def descRequestTypeTypeStandard : Nat := 0x00

/-- Modelled from the spec: class request type. -/
@[simp] def descRequestTypeTypeClass : Nat := 0x20

/-- Modelled from the spec: vendor request type. -/
@[simp] def descRequestTypeTypeVendor : Nat := 0x40

/-- Modelled from the spec: recipient mask, bits 0..4. -/
@[simp] def descRequestTypeRecipientMsk : Nat := 0x1F

/-- Modelled from the spec: recipient device. -/
@[simp] def descRequestTypeRecipientDevice : Nat := 0x00

/-- Modelled from the spec: recipient interface. -/
@[simp] def descRequestTypeRecipientInterface : Nat := 0x01

/-- Modelled from the spec: recipient endpoint. -/
@[simp] def descRequestTypeRecipientEndpoint : Nat := 0x02

/-- Modelled from the spec: standard GET_STATUS request code. -/
@[simp] def descRequestStandardGetStatus : Nat := 0x00

/-- Modelled from the spec: standard CLEAR_FEATURE request code. -/
@[simp] def descRequestStandardClearFeature : Nat := 0x01

/-- Modelled from the spec: standard SET_FEATURE request code. -/
@[simp] def descRequestStandardSetFeature : Nat := 0x03

/-- Modelled from the spec: standard SET_ADDRESS request code. -/
@[simp] def descRequestStandardSetAddress : Nat := 0x05

/-- Modelled from the spec: standard GET_DESCRIPTOR request code. -/
@[simp] def descRequestStandardGetDescriptor : Nat := 0x06

/-- Modelled from the spec: standard GET_CONFIGURATION request code. -/
@[simp] def descRequestStandardGetConfiguration : Nat := 0x08

/-- Modelled from the spec: standard SET_CONFIGURATION request code. -/
@[simp] def descRequestStandardSetConfiguration : Nat := 0x09

/-- Modelled from the spec: CDC SET_LINE_CODING request code. -/
@[simp] def descCDCRequestSetLineCoding : Nat := 0x20

/-- Modelled from the spec: CDC SET_CONTROL_LINE_STATE request code. -/
@[simp] def descCDCRequestSetControlLineState : Nat := 0x22

/-- Modelled from the spec: CDC SEND_BREAK request code. -/
@[simp] def descCDCRequestSendBreak : Nat := 0x23

/-- Modelled from the spec: HID GET_REPORT request code. -/
@[simp] def descHIDRequestGetReport : Nat := 0x01

/-- Modelled from the spec: HID SET_REPORT request code. -/
@[simp] def descHIDRequestSetReport : Nat := 0x09

/-- Modelled from the spec: HID SET_IDLE request code. -/
@[simp] def descHIDRequestSetIdle : Nat := 0x0A

/-- Modelled from the spec: device descriptor type code. -/
@[simp] def descTypeDevice : Nat := 0x01

/-- Modelled from the spec: configuration descriptor type code. -/
@[simp] def descTypeConfigure : Nat := 0x02

/-- Modelled from the spec: string descriptor type code. -/
@[simp] def descTypeString : Nat := 0x03

/-- Modelled from the spec: device qualifier descriptor type code. -/
@[simp] def descTypeQualification : Nat := 0x06

/-- Modelled from the spec: other-speed configuration descriptor type code. -/
@[simp] def descTypeOtherSpeedConfiguration : Nat := 0x07

/-- Modelled from the spec: HID descriptor type code. -/
@[simp] def descTypeHID : Nat := 0x21

/-- Modelled from the spec: HID report descriptor type code. -/
@[simp] def descTypeHIDReport : Nat := 0x22

/-- Modelled from the spec: length of the device descriptor (18 bytes). -/
@[simp] def descLengthDevice : Nat := 18

/-- Modelled from the spec: length of the qualifier descriptor (10 bytes). -/
@[simp] def descLengthQualification : Nat := 10

/-- Modelled from the spec: size of a CDC line coding packet (7 bytes). -/
@[simp] def descCDCACMLineCodingSize : Nat := 7

/-- USB standard SETUP packet (Go struct `dcdSetup`).  Fields are machine
integers: bmRequestType and bRequest are uint8, the rest uint16. -/
structure dcdSetup where
  bmRequestType : Nat
  bRequest : Nat
  wValue : Nat
  wIndex : Nat
  wLength : Nat
deriving DecidableEq, Repr

/-- Field bounds of a SETUP packet as laid down by its Go field types. -/
def dcdSetup.wf (s : dcdSetup) : Prop :=
  s.bmRequestType < 256 ∧ s.bRequest < 256 ∧
    s.wValue < 65536 ∧ s.wIndex < 65536 ∧ s.wLength < 65536

instance (s : dcdSetup) : Decidable s.wf := by
  unfold dcdSetup.wf; infer_instance

/-- The zero SETUP packet (Go composite literal `dcdSetup{}`). -/
def dcdSetup.zero : dcdSetup := ⟨0, 0, 0, 0, 0⟩

/-- Go method `(*dcdSetup).set(u uint64)`: decode the five fields from a
64-bit word, mirroring the mask-and-shift expressions of the source. -/
def dcdSetup.set (u : Nat) : dcdSetup where
  bmRequestType := u &&& 0xFF
  bRequest := (u &&& 0xFF00) >>> 8
  wValue := (u &&& 0xFFFF0000) >>> 16
  wIndex := (u &&& 0xFFFF00000000) >>> 32
  wLength := (u &&& 0xFFFF000000000000) >>> 48

/-- Go method `(dcdSetup).pack() uint64`: encode the five fields into a
64-bit word, mirroring the mask-shift-or expression of the source. -/
def dcdSetup.pack (s : dcdSetup) : Nat :=
  ((s.bmRequestType &&& 0xFF) <<< 0) |||
    ((s.bRequest &&& 0xFF) <<< 8) |||
    ((s.wValue &&& 0xFFFF) <<< 16) |||
    ((s.wIndex &&& 0xFFFF) <<< 32) |||
    ((s.wLength &&& 0xFFFF) <<< 48)

/-- Go method `(dcdSetup).direction()`: bit 7 of bmRequestType,
0 = OUT, 1 = IN. -/
def dcdSetup.direction (s : dcdSetup) : Nat :=
  (s.bmRequestType &&& descRequestTypeDirMsk) >>> descRequestTypeDirPos

/-- Go method `(dcdSetup).equals`: field-wise equality. -/
def dcdSetup.equals (s t : dcdSetup) : Bool :=
  s.bmRequestType == t.bmRequestType && s.bRequest == t.bRequest &&
    s.wValue == t.wValue && s.wIndex == t.wIndex && s.wLength == t.wLength

/-- Go function `setup(b []uint8)`: decode a SETUP packet from a byte slice,
returning the zero packet on short input.  `packU16` (declared outside src/)
is modelled from the spec as little-endian 16-bit assembly. -/
def setupFromBytes (b : List Nat) : dcdSetup :=
  if 8 ≤ b.length then
    { bmRequestType := b.getD 0 0
      bRequest := b.getD 1 0
      wValue := b.getD 2 0 + 256 * b.getD 3 0
      wIndex := b.getD 4 0 + 256 * b.getD 5 0
      wLength := b.getD 6 0 + 256 * b.getD 7 0 }
  else dcdSetup.zero

/-- Modelled from the spec: `packU32` (declared outside src/) assembles the
first four bytes as a little-endian 32-bit value. -/
def packU32 (b : List Nat) : Nat :=
  b.getD 0 0 + 256 * b.getD 1 0 + 65536 * b.getD 2 0 + 16777216 * b.getD 3 0

/-- Go method `(*dcd).setState`: guarded state transition.  Takes the
current state (the volatile register read) and the requested state; returns
the ok flag and the state after the conditional write. -/
def setState (curr state : dcdState) : Bool × dcdState :=
  let ok : Bool :=
    match state with
    | .notReady => true
    | .default => curr == dcdState.notReady || curr == dcdState.default
    | .addressed => curr == dcdState.default
    | .configured =>
        curr == dcdState.addressed || curr == dcdState.configured ||
          curr == dcdState.suspended
    | .suspended =>
        curr == dcdState.addressed || curr == dcdState.configured ||
          curr == dcdState.suspended
  (ok, if ok then state else curr)

/-- The transition table exactly as the claim states it (spec section 3):
NotReady from any state; Default from NotReady or Default; Addressed from
Default; Configured from Addressed, Configured, or Suspended; Suspended from
Addressed, Configured, or Suspended.  Spec-side definition, kept for
comparison with `setState`. -/
def acceptsTransition (s t : dcdState) : Bool :=
  match t with
  | .notReady => true
  | .default => s == dcdState.notReady || s == dcdState.default
  | .addressed => s == dcdState.default
  | .configured =>
      s == dcdState.addressed || s == dcdState.configured ||
        s == dcdState.suspended
  | .suspended =>
      s == dcdState.addressed || s == dcdState.configured ||
        s == dcdState.suspended

/-- One locale entry of a class descriptor table: the language code plus the
per-index string descriptors (Go `locale[n].language` /
`locale[n].descriptor[idx]`, declared outside src/). -/
structure localeRec where
  language : Nat
  descriptor : List (List Nat)
deriving DecidableEq, Repr

/-- One CDC-ACM class descriptor record (an element of the integrator-owned
`descCDCACM` table, declared outside src/): prebuilt device / configuration /
qualifier blobs, the locale table, and the 7-byte control scratch `cx`. -/
structure acmRecord where
  device : List Nat
  config : List Nat
  qualif : List Nat
  locale : List localeRec
  cx : List Nat
deriving DecidableEq, Repr

/-- One HID class descriptor record (an element of the integrator-owned
`descHID` table, declared outside src/). -/
structure hidRecord where
  device : List Nat
  config : List Nat
  qualif : List Nat
  locale : List localeRec
  cx : List Nat
deriving DecidableEq, Repr

/-- The compile-time configuration surface the core consumes: descriptor
tables, class-specific constants and the endpoint-status oracle.  All of it
is declared outside src/ and supplied by the integrator, so it is a
parameter of the model.  Table lookups are total functions (the Go arrays
are indexed with `config-1`). -/
structure Env where
  descCDCACMCount : Nat
  descHIDCount : Nat
  descCDCACMConfigSize : Nat
  descHIDConfigSize : Nat
  descHIDSxSize : Nat
  descCDCACMInterfaceCtrl : Nat
  descHIDInterfaceKeyboard : Nat
  descHIDInterfaceMouse : Nat
  descHIDInterfaceSerial : Nat
  descHIDInterfaceJoystick : Nat
  descHIDInterfaceMediaKey : Nat
  descHIDInterfaceCount : Nat
  descLengthInterface : Nat
  descHIDConfigKeyboardPos : Nat
  descHIDConfigMousePos : Nat
  descHIDConfigSerialPos : Nat
  descHIDConfigJoystickPos : Nat
  descHIDConfigMediaKeyPos : Nat
  descHIDReportKeyboard : List Nat
  descHIDReportMouse : List Nat
  descHIDReportSerial : List Nat
  descHIDReportJoystick : List Nat
  descHIDReportMediaKey : List Nat
  descCommonManufacturer : List Nat
  descCommonProduct : List Nat
  descCommonSerialNumber : List Nat
  descCDCACM : Int → acmRecord
  descHID : Int → hidRecord
  endpointStatusValue : Nat → Nat

/-- Go constant `dcdCount = descCDCACMCount + descHIDCount`. -/
def dcdCount (env : Env) : Nat := env.descCDCACMCount + env.descHIDCount

/-- Byte list for the Go string literal " CDC-ACM" appended to the product
string in the CDC string descriptor path. -/
def strCDCACMSuffix : List Nat := [0x20, 0x43, 0x44, 0x43, 0x2D, 0x41, 0x43, 0x4D]

/-- Byte list for the Go string literal " HID" appended to the product
string in the HID string descriptor path. -/
def strHIDSuffix : List Nat := [0x20, 0x48, 0x49, 0x44]

/-- The `switch uint8(sup.wValue)` selecting which host-configured string a
string descriptor is rebuilt from (CDC variant: product suffixed
" CDC-ACM"); the default case leaves the Go string empty. -/
def acmStringSource (env : Env) (idx : Nat) : List Nat :=
  if idx = 1 then env.descCommonManufacturer
  else if idx = 2 then env.descCommonProduct ++ strCDCACMSuffix
  else if idx = 3 then env.descCommonSerialNumber
  else []

/-- HID variant of the string selection (product suffixed " HID"). -/
def hidStringSource (env : Env) (idx : Nat) : List Nat :=
  if idx = 1 then env.descCommonManufacturer
  else if idx = 2 then env.descCommonProduct ++ strHIDSuffix
  else if idx = 3 then env.descCommonSerialNumber
  else []

/-- The UTF-16LE copy loop of the string descriptor rewrite: for each code
point c at position n, stop if `2+2*n >= len(sd)`, else write `uint8(c)` at
`2+2*n` and 0 at `3+2*n`.  (`List.set` out of range is a no-op where the Go
index expression would trap on a malformed table.) -/
def copyRunes (sd : List Nat) (s : List Nat) (n : Nat) : List Nat :=
  match s with
  | [] => sd
  | c :: rest =>
      if sd.length ≤ 2 + 2 * n then sd
      else copyRunes ((sd.set (2 + 2 * n) (c % 256)).set (3 + 2 * n) 0) rest (n + 1)

/-- In-place rewrite of a stored string descriptor as a UTF-16LE string
descriptor of s: byte 0 = `uint8(2+2*len(s))`, byte 1 = descTypeString,
then the copy loop. -/
def rewriteStringDescriptor (sd : List Nat) (s : List Nat) : List Nat :=
  copyRunes ((sd.set 0 ((2 + 2 * s.length) % 256)).set 1 descTypeString) s 0

/-- The locale search of the string descriptor path for index > 0: the first
locale whose language matches wIndex and which has a descriptor at the
requested index (the Go loop continues scanning when the language matches
but the index is out of range). -/
def findLocale (locales : List localeRec) (wIndex idx : Nat) : Option localeRec :=
  locales.find? fun lc => wIndex == lc.language && idx < lc.descriptor.length

/-- The string descriptor branch shared by both responders, returning the
descriptor bytes selected (or rebuilt); `[]` plays the role of the Go nil
slice.  `strSource` is the class-specific string selection. -/
def stringDescriptorFor (locales : List localeRec) (strSource : Nat → List Nat)
    (wValue wIndex : Nat) : List Nat :=
  if wValue % 256 = 0 then
    -- Language-list query: an out-of-range language index is reset to 0.
    let code := if locales.length ≤ wIndex then 0 else wIndex
    (locales.getD code ⟨0, []⟩).descriptor.getD (wValue % 256) []
  else
    match findLocale locales wIndex (wValue % 256) with
    | none => []
    | some lc =>
        rewriteStringDescriptor (lc.descriptor.getD (wValue % 256) [])
          (strSource (wValue % 256))

/-- The common tail of both descriptor responders: if any descriptor bytes
were assembled (`0 < dxn`), clamp the length against `uint8(sup.wLength)`,
flush the cache and transmit from the class dx scratch. -/
def descTransmitCalls (p : ptr) (wLength dxn : Nat) : List halCall :=
  if 0 < dxn then
    let n := if wLength % 256 < dxn then wLength % 256 else dxn
    [.flushCache p n, .controlTransmit p n false]
  else []

/-- Result of a descriptor responder: the assembled (pre-clamp) descriptor
length `dxn`, the bytes copied into the class dx scratch, and the HAL calls
issued. -/
structure descResult where
  dxn : Nat
  dx : List Nat
  calls : List halCall
deriving DecidableEq, Repr

/-- Descriptor assembly of `(*dcd).controlDescriptorCDCACM` (the big switch
on `sup.wValue >> 8`), producing the assembled length and the dx contents. -/
def assembleCDCACM (env : Env) (cfg : Int) (sup : dcdSetup) : Nat × List Nat :=
  let acm := env.descCDCACM (cfg - 1)
  let v := sup.wValue >>> 8
  if v = descTypeDevice then
    (descLengthDevice, acm.device.take descLengthDevice)
  else if v = descTypeConfigure then
    let dxn := env.descCDCACMConfigSize % 256
    (dxn, acm.config.take dxn)
  else if v = descTypeString then
    if acm.locale.length = 0 then (0, [])
    else
      let sd := stringDescriptorFor acm.locale (acmStringSource env)
        sup.wValue sup.wIndex
      let dxn := sd.getD 0 0
      (dxn, sd.take dxn)
  else if v = descTypeQualification then
    (descLengthQualification, acm.qualif.take descLengthQualification)
  else
    -- descTypeOtherSpeedConfiguration is an unimplemented TODO in the
    -- source and assembles nothing, like every unhandled descriptor type.
    (0, [])

/-- Go method `(*dcd).controlDescriptorCDCACM`. -/
def controlDescriptorCDCACM (env : Env) (cfg : Int) (sup : dcdSetup) : descResult :=
  let a := assembleCDCACM env cfg sup
  { dxn := a.1, dx := a.2, calls := descTransmitCalls (.cdcDx (cfg - 1)) sup.wLength a.1 }

/-- Descriptor assembly of `(*dcd).controlDescriptorHID` (the big switch on
`sup.wValue >> 8`), producing the assembled length and the dx contents. -/
def assembleHID (env : Env) (cfg : Int) (sup : dcdSetup) : Nat × List Nat :=
  let hid := env.descHID (cfg - 1)
  let v := sup.wValue >>> 8
  if v = descTypeDevice then
    (descLengthDevice, hid.device.take descLengthDevice)
  else if v = descTypeConfigure then
    let dxn := env.descHIDConfigSize % 256
    (dxn, hid.config.take dxn)
  else if v = descTypeString then
    if hid.locale.length = 0 then (0, [])
    else
      let sd := stringDescriptorFor hid.locale (hidStringSource env)
        sup.wValue sup.wIndex
      let dxn := sd.getD 0 0
      (dxn, sd.take dxn)
  else if v = descTypeQualification then
    (descLengthQualification, hid.qualif.take descLengthQualification)
  else if v = descTypeHID then
    let pos :=
      if sup.wIndex = env.descHIDInterfaceKeyboard then env.descHIDConfigKeyboardPos
      else if sup.wIndex = env.descHIDInterfaceMouse then env.descHIDConfigMousePos
      else if sup.wIndex = env.descHIDInterfaceSerial then env.descHIDConfigSerialPos
      else if sup.wIndex = env.descHIDInterfaceJoystick then env.descHIDConfigJoystickPos
      else if sup.wIndex = env.descHIDInterfaceMediaKey then env.descHIDConfigMediaKeyPos
      else 0
    if pos ≠ 0 then
      (env.descLengthInterface, (hid.config.drop pos).take env.descLengthInterface)
    else (0, [])
  else if v = descTypeHIDReport then
    if sup.wIndex = env.descHIDInterfaceKeyboard then
      (env.descHIDReportKeyboard.length % 256, env.descHIDReportKeyboard)
    else if sup.wIndex = env.descHIDInterfaceMouse then
      (env.descHIDReportMouse.length % 256, env.descHIDReportMouse)
    else if sup.wIndex = env.descHIDInterfaceSerial then
      (env.descHIDReportSerial.length % 256, env.descHIDReportSerial)
    else if sup.wIndex = env.descHIDInterfaceJoystick then
      (env.descHIDReportJoystick.length % 256, env.descHIDReportJoystick)
    else if sup.wIndex = env.descHIDInterfaceMediaKey then
      (env.descHIDReportMediaKey.length % 256, env.descHIDReportMediaKey)
    else (0, [])
  else
    (0, [])

/-- Go method `(*dcd).controlDescriptorHID`. -/
def controlDescriptorHID (env : Env) (cfg : Int) (sup : dcdSetup) : descResult :=
  let a := assembleHID env cfg sup
  { dxn := a.1, dx := a.2, calls := descTransmitCalls (.hidDx (cfg - 1)) sup.wLength a.1 }

/-- Result of the SETUP-phase dispatcher: the (possibly updated) class
binding and device state of the receiver, the returned stage, and the HAL
calls made on the way. -/
structure csResult where
  cc : deviceClass
  st : dcdState
  stage : dcdStage
  calls : List halCall
deriving DecidableEq, Repr

/-- Go method `(*dcd).controlSetup`: the SETUP-phase request dispatcher.
The receiver fields it reads and writes (`d.cc`, `d.st`) are passed and
returned explicitly.  The internal `d.event(dcdEvent{id:
dcdEventDeviceConfiguration})` emitted by SET_CONFIGURATION reduces to
`setState(dcdStateConfigured)` and is inlined as such. -/
def controlSetup (env : Env) (cc : deviceClass) (st : dcdState)
    (sup : dcdSetup) : csResult :=
  let stallResult : csResult := { cc := cc, st := st, stage := .stall, calls := [] }
  let t := sup.bmRequestType &&& descRequestTypeTypeMsk
  let rd := sup.bmRequestType &&& (descRequestTypeRecipientMsk ||| descRequestTypeDirMsk)
  if t = descRequestTypeTypeStandard then
    if rd = descRequestTypeRecipientDevice ||| descRequestTypeDirOut then
      if sup.bRequest = descRequestStandardSetAddress then
        { cc := cc, st := st, stage := .statusOut,
          calls := [.setDeviceAddress sup.wValue, .controlReceive .null 0 false] }
      else if sup.bRequest = descRequestStandardSetConfiguration then
        let cfg0 : Int := (sup.wValue : Int)
        let cfg : Int := if cfg0 = 0 ∨ cfg0 > (dcdCount env : Int) then 1 else cfg0
        let st2 := (setState st .configured).2
        let cc2 : deviceClass := { cc with config := cfg }
        match cc.id with
        | .cdcacm =>
            { cc := cc2, st := st2, stage := .statusOut,
              calls := [.uartConfigure, .controlReceive .null 0 false] }
        | .hid =>
            { cc := cc2, st := st2, stage := .statusOut,
              calls := [.serialConfigure, .keyboardConfigure, .mouseConfigure,
                .joystickConfigure, .controlReceive .null 0 false] }
      else stallResult
    else if rd = descRequestTypeRecipientDevice ||| descRequestTypeDirIn then
      if sup.bRequest = descRequestStandardGetStatus then
        { cc := cc, st := st, stage := .dataIn,
          calls := [.controlStatusBuffer [0, 0],
            .controlTransmit (.statusBuf [0, 0]) 2 false] }
      else if sup.bRequest = descRequestStandardGetDescriptor then
        match cc.id with
        | .cdcacm =>
            { cc := cc, st := st, stage := .dataIn,
              calls := (controlDescriptorCDCACM env cc.config sup).calls }
        | .hid =>
            { cc := cc, st := st, stage := .dataIn,
              calls := (controlDescriptorHID env cc.config sup).calls }
      else if sup.bRequest = descRequestStandardGetConfiguration then
        let b := (cc.config % 256).toNat
        { cc := cc, st := st, stage := .dataIn,
          calls := [.controlStatusBuffer [b],
            .controlTransmit (.statusBuf [b]) 1 false] }
      else stallResult
    else if rd = descRequestTypeRecipientInterface ||| descRequestTypeDirIn then
      if sup.bRequest = descRequestStandardGetDescriptor then
        match cc.id with
        | .cdcacm =>
            { cc := cc, st := st, stage := .dataIn,
              calls := (controlDescriptorCDCACM env cc.config sup).calls }
        | .hid =>
            { cc := cc, st := st, stage := .dataIn,
              calls := (controlDescriptorHID env cc.config sup).calls }
      else if sup.bRequest = descHIDRequestGetReport then
        match cc.id with
        | .cdcacm => stallResult
        | .hid =>
            { cc := cc, st := st, stage := .dataIn,
              calls := (controlDescriptorHID env cc.config sup).calls }
      else stallResult
    else if rd = descRequestTypeRecipientEndpoint ||| descRequestTypeDirOut then
      if sup.bRequest = descRequestStandardClearFeature then
        { cc := cc, st := st, stage := .statusOut,
          calls := [.endpointClearFeature (sup.wIndex % 256),
            .controlReceive .null 0 false] }
      else if sup.bRequest = descRequestStandardSetFeature then
        { cc := cc, st := st, stage := .statusOut,
          calls := [.endpointSetFeature (sup.wIndex % 256),
            .controlReceive .null 0 false] }
      else stallResult
    else if rd = descRequestTypeRecipientEndpoint ||| descRequestTypeDirIn then
      if sup.bRequest = descRequestStandardGetStatus then
        let sv := env.endpointStatusValue (sup.wIndex % 256) % 65536
        let bytes := [sv % 256, (sv >>> 8) % 256]
        { cc := cc, st := st, stage := .dataIn,
          calls := [.endpointStatusQuery (sup.wIndex % 256),
            .controlStatusBuffer bytes,
            .controlTransmit (.statusBuf bytes) 2 false] }
      else stallResult
    else stallResult
  else if t = descRequestTypeTypeClass then
    if rd = descRequestTypeRecipientInterface ||| descRequestTypeDirOut then
      if sup.bRequest = descCDCRequestSetLineCoding then
        match cc.id with
        | .cdcacm =>
            if sup.wLength = descCDCACMLineCodingSize then
              { cc := cc, st := st, stage := .dataOut,
                calls := [.controlReceive (.cdcCx (cc.config - 1))
                  descCDCACMLineCodingSize true] }
            else stallResult
        | .hid => stallResult
      else if sup.bRequest = descCDCRequestSetControlLineState then
        match cc.id with
        | .cdcacm =>
            if sup.wIndex = env.descCDCACMInterfaceCtrl then
              { cc := cc, st := st, stage := .statusOut,
                calls := [.controlReceive .null 0 false] }
            else stallResult
        | .hid => stallResult
      else if sup.bRequest = descCDCRequestSendBreak then
        match cc.id with
        | .cdcacm =>
            { cc := cc, st := st, stage := .statusOut,
              calls := [.controlReceive .null 0 false] }
        | .hid => stallResult
      else if sup.bRequest = descHIDRequestSetReport then
        match cc.id with
        | .cdcacm => stallResult
        | .hid =>
            if sup.wLength ≤ env.descHIDSxSize then
              -- The source also seeds descHID[config-1].cx[0] with the
              -- sentinel 0xE9 here; table mutation is not tracked.
              { cc := cc, st := st, stage := .dataOut,
                calls := [.controlReceive (.hidCx (cc.config - 1))
                  sup.wLength true] }
            else stallResult
      else if sup.bRequest = descHIDRequestSetIdle then
        match cc.id with
        | .cdcacm => stallResult
        | .hid =>
            { cc := cc, st := st, stage := .statusOut,
              calls := [.controlReceive .null 0 false] }
      else stallResult
    else if rd = descRequestTypeRecipientInterface ||| descRequestTypeDirIn then
      if sup.bRequest = descHIDRequestGetReport then
        match cc.id with
        | .cdcacm => stallResult
        | .hid =>
            { cc := cc, st := st, stage := .dataIn,
              calls := [.controlStatusBuffer [0, 0],
                .controlTransmit (.statusBuf [0, 0]) 2 false] }
      else stallResult
    else stallResult
  else
    -- Vendor requests and unhandled request types fall through to stall.
    stallResult

/-- Go method `(*dcd).controlComplete`: completion-stage follow-up work,
dispatching on the stored in-flight SETUP packet.  Only the HAL calls are
returned; the keyboard LED table write is table mutation, not tracked. -/
def controlComplete (env : Env) (cc : deviceClass) (stp : dcdSetup) : List halCall :=
  let t := stp.bmRequestType &&& descRequestTypeTypeMsk
  let rd := stp.bmRequestType &&& (descRequestTypeRecipientMsk ||| descRequestTypeDirMsk)
  if t = descRequestTypeTypeClass then
    if rd = descRequestTypeRecipientInterface ||| descRequestTypeDirOut then
      if stp.bRequest = descCDCRequestSetLineCoding then
        match cc.id with
        | .cdcacm =>
            if stp.wIndex = env.descCDCACMInterfaceCtrl then
              [.uartSetLineCoding (env.descCDCACM (cc.config - 1)).cx]
            else []
        | .hid => []
      else if stp.bRequest = descCDCRequestSetControlLineState then
        match cc.id with
        | .cdcacm =>
            if stp.wIndex = env.descCDCACMInterfaceCtrl then
              [.uartSetLineState stp.wValue]
            else []
        | .hid => []
      else if stp.bRequest = descHIDRequestSetReport then
        match cc.id with
        | .cdcacm => []
        | .hid =>
            let hid := env.descHID (cc.config - 1)
            if stp.wIndex = env.descHIDInterfaceKeyboard then
              if stp.wValue >>> 8 = descTypeConfigure then
                if stp.wLength = 1 then
                  -- hid.keyboard.led := hid.cx[0] (table write, not tracked)
                  [.controlTransmit .null 0 false]
                else []
              else []
            else if stp.wIndex = env.descHIDInterfaceSerial then
              if stp.wValue >>> 8 = descTypeString then
                if 4 ≤ stp.wLength ∧ packU32 hid.cx = 0x68C245A9 then
                  [.enableSOF true env.descHIDInterfaceCount]
                else []
              else []
            else []
      else []
    else []
  else []

-- Event pump.

/-- Virtual interrupt event (Go struct `dcdEvent`). -/
structure dcdEvent where
  id : Nat
  setup : dcdSetup
  mask : Nat
deriving DecidableEq, Repr

/-- Virtual interrupt code `dcdEventInvalid`. -/
@[simp] def dcdEventInvalid : Nat := 0

/-- Virtual interrupt code `dcdEventStatusReset`. -/
@[simp] def dcdEventStatusReset : Nat := 1

/-- Virtual interrupt code `dcdEventStatusResume`. -/
@[simp] def dcdEventStatusResume : Nat := 2

/-- Virtual interrupt code `dcdEventStatusSuspend`. -/
@[simp] def dcdEventStatusSuspend : Nat := 3

/-- Virtual interrupt code `dcdEventStatusError`. -/
@[simp] def dcdEventStatusError : Nat := 4

/-- Virtual interrupt code `dcdEventDeviceReady`. -/
@[simp] def dcdEventDeviceReady : Nat := 5

/-- Virtual interrupt code `dcdEventDeviceAddress`. -/
@[simp] def dcdEventDeviceAddress : Nat := 6

/-- Virtual interrupt code `dcdEventDeviceConfiguration`. -/
@[simp] def dcdEventDeviceConfiguration : Nat := 7

/-- Virtual interrupt code `dcdEventControlSetup`. -/
@[simp] def dcdEventControlSetup : Nat := 8

/-- Virtual interrupt code `dcdEventControlComplete`. -/
@[simp] def dcdEventControlComplete : Nat := 9

/-- Virtual interrupt code `dcdEventTransferComplete`. -/
@[simp] def dcdEventTransferComplete : Nat := 10

/-- Virtual interrupt code `dcdEventTimer`. -/
@[simp] def dcdEventTimer : Nat := 11

/-- The per-controller mutable state of the Go `dcd` struct that the event
pump reads and writes: the device state byte, the class binding, the stored
in-flight SETUP packet and the control stage. -/
structure DCD where
  st : dcdState
  cc : deviceClass
  setup : dcdSetup
  stage : dcdStage
deriving DecidableEq, Repr

/-- Go method `(*dcd).event`: translate one virtual interrupt into state
machine transitions and control-transfer work, returning the updated
controller state and the HAL calls made. -/
def event (env : Env) (d : DCD) (ev : dcdEvent) : DCD × List halCall :=
  if ev.id = dcdEventStatusReset then
    ({ d with st := (setState d.st .notReady).2 }, [])
  else if ev.id = dcdEventStatusResume then
    ({ d with st := (setState d.st .configured).2 }, [])
  else if ev.id = dcdEventStatusSuspend then
    ({ d with st := (setState d.st .suspended).2 }, [])
  else if ev.id = dcdEventDeviceReady then
    let r := setState d.st .default
    ({ d with st := r.2 }, if r.1 then [.endpointEnable 0 true 0] else [])
  else if ev.id = dcdEventDeviceAddress then
    ({ d with st := (setState d.st .addressed).2 }, [])
  else if ev.id = dcdEventDeviceConfiguration then
    ({ d with st := (setState d.st .configured).2 }, [])
  else if ev.id = dcdEventControlSetup then
    let r := controlSetup env d.cc d.st ev.setup
    let d2 : DCD := { st := r.st, cc := r.cc, setup := ev.setup, stage := r.stage }
    if r.stage = dcdStage.stall then
      (d2, r.calls ++ [.controlStall true ev.setup.direction])
    else
      (d2, r.calls)
  else if ev.id = dcdEventControlComplete then
    ({ d with setup := dcdSetup.zero }, controlComplete env d.cc d.setup)
  else
    (d, [])

/-- Fold of `event` over a list of delivered events, discarding traces. -/
def runEvents (env : Env) (d : DCD) : List dcdEvent → DCD
  | [] => d
  | e :: rest => runEvents env (event env d e).1 rest

/-- Whether a control transfer is active after a list of events, starting
from activity flag a: ControlSetup opens a transfer, ControlComplete closes
it.  Spec-side definition of the "active between ControlSetup receipt and
ControlComplete processing" interval of the claim. -/
def activeAfter (a : Bool) : List dcdEvent → Bool
  | [] => a
  | e :: rest =>
      activeAfter
        (if e.id = dcdEventControlSetup then true
         else if e.id = dcdEventControlComplete then false
         else a) rest

-- Instance pool.

/-- One slot of the static `dcdInstance` pool: the fields of the Go `dcd`
struct that `initDCD` assigns.  `core` is the parent core reference (nil
until the slot is reserved; modelled as the port index it is bound to), and
`dhwAllocated` stands for the `dhw` HAL reference produced by `allocDHW`. -/
structure dcdSlot where
  core : Option Nat
  dhwAllocated : Bool
  port : Nat
  cc : deviceClass
  id : Nat
  st : dcdState
deriving DecidableEq, Repr

/-- The slot contents `initDCD` writes when it reserves slot i for the
given port and class. -/
def initializedSlot (port : Nat) (cls : deviceClass) (i : Nat) : dcdSlot :=
  { core := some port, dhwAllocated := true, port := port, cc := cls,
    id := i, st := .notReady }

/-- The reservation loop of `initDCD`: scan the pool for the first slot
whose core reference is nil, initialize it, and report its index.  `i` is
the index of the head slot within the whole pool. -/
def initDCDLoop (port : Nat) (cls : deviceClass) (slots : List dcdSlot)
    (i : Nat) : Option (Nat × List dcdSlot) :=
  match slots with
  | [] => none
  | s :: rest =>
      if s.core = none then
        some (i, initializedSlot port cls i :: rest)
      else
        match initDCDLoop port cls rest (i + 1) with
        | none => none
        | some (j, rest2) => some (j, s :: rest2)

/-- Go function `initDCD(port, speed, class)`: validate the arguments, then
reserve the first free pool slot.  Returns the index of the reserved slot
(`nil` as `none`), the status, and the pool after the call.  `speed` is
only forwarded to `allocDHW` and does not influence the result. -/
def initDCD (env : Env) (pool : List dcdSlot) (port : Nat) (speed : Nat)
    (cls : deviceClass) : Option Nat × status × List dcdSlot :=
  let _ := speed
  if dcdCount env = 0 then (none, .invalid, pool)
  else if cls.id = classID.cdcacm ∧
      (cls.config = 0 ∨ cls.config > (env.descCDCACMCount : Int)) then
    (none, .invalid, pool)
  else
    match initDCDLoop port cls pool 0 with
    | some (i, pool2) => (some i, .ok, pool2)
    | none => (none, .busy, pool)

/-- Index of the first pool slot whose core reference is unset. -/
def firstFreeIdx : List dcdSlot → Option Nat
  | [] => none
  | s :: rest =>
      if s.core = none then some 0 else (firstFreeIdx rest).map (· + 1)

/-- The claim side of C7, written from its words: Invalid on a violated
precondition, Busy with the pool untouched once every slot is taken, and
otherwise the first slot whose core is nil is initialized in place and its
index returned with OK. -/
def initDCDSpec (env : Env) (pool : List dcdSlot) (port : Nat) (speed : Nat)
    (cls : deviceClass) : Option Nat × status × List dcdSlot :=
  let _ := speed
  if dcdCount env = 0 then (none, .invalid, pool)
  else if cls.id = classID.cdcacm ∧
      (cls.config = 0 ∨ cls.config > (env.descCDCACMCount : Int)) then
    (none, .invalid, pool)
  else
    match firstFreeIdx pool with
    | none => (none, .busy, pool)
    | some i => (some i, .ok, pool.set i (initializedSlot port cls i))

-- Concrete sample instances used by the closed witness and counterexample
-- theorems below.

/-- A sample CDC-ACM descriptor record: 18-byte device descriptor, 9-byte
configuration blob, 10-byte qualifier, one US-English locale. -/
def acmW : acmRecord :=
  { device := List.range 18
    config := List.range 9
    qualif := List.range 10
    locale := [⟨0x0409, [[4, 3, 9, 4], [10, 3, 0, 0, 0, 0, 0, 0, 0, 0]]⟩]
    cx := [0, 0, 0, 0, 0, 0, 0] }

/-- A sample HID descriptor record; its control scratch holds the SOF
activation sentinel bytes A9 45 C2 68. -/
def hidW : hidRecord :=
  { device := List.range 18
    config := List.range 60
    qualif := List.range 10
    locale := [⟨0x0409, [[4, 3, 9, 4]]⟩]
    cx := [0xA9, 0x45, 0xC2, 0x68] }

/-- A sample environment: one CDC-ACM and one HID configuration, distinct
HID interface indices 0..4, nonzero HID subheader positions. -/
def envW : Env :=
  { descCDCACMCount := 1
    descHIDCount := 1
    descCDCACMConfigSize := 9
    descHIDConfigSize := 60
    descHIDSxSize := 64
    descCDCACMInterfaceCtrl := 0
    descHIDInterfaceKeyboard := 0
    descHIDInterfaceMouse := 1
    descHIDInterfaceSerial := 2
    descHIDInterfaceJoystick := 3
    descHIDInterfaceMediaKey := 4
    descHIDInterfaceCount := 5
    descLengthInterface := 9
    descHIDConfigKeyboardPos := 18
    descHIDConfigMousePos := 27
    descHIDConfigSerialPos := 36
    descHIDConfigJoystickPos := 45
    descHIDConfigMediaKeyPos := 54
    descHIDReportKeyboard := [1, 2, 3]
    descHIDReportMouse := [4, 5, 6]
    descHIDReportSerial := [7, 8, 9]
    descHIDReportJoystick := [10, 11, 12]
    descHIDReportMediaKey := [13, 14, 15]
    descCommonManufacturer := [77]
    descCommonProduct := [80]
    descCommonSerialNumber := [83]
    descCDCACM := fun _ => acmW
    descHID := fun _ => hidW
    endpointStatusValue := fun _ => 0 }

/-- A CDC-ACM record with two locales whose language-list descriptors
differ, exercising the out-of-range language index clamp. -/
def acm8 : acmRecord :=
  { device := List.range 18
    config := List.range 9
    qualif := List.range 10
    locale := [⟨0x0409, [[4, 3, 9, 4]]⟩, ⟨0x0809, [[4, 3, 16, 4]]⟩]
    cx := [0, 0, 0, 0, 0, 0, 0] }

/-- The sample environment with the two-locale CDC-ACM record. -/
def env8 : Env := { envW with descCDCACM := fun _ => acm8 }

/-- A sample controller state: configured CDC-ACM instance, no transfer in
flight. -/
def dW : DCD :=
  { st := .configured, cc := ⟨.cdcacm, 1⟩, setup := dcdSetup.zero, stage := .setup }

/-- The amended claim side of C8: for a language-list string request, the
descriptor served is locale[code].descriptor[0] with code = wIndex when
wIndex is in range and 0 otherwise. -/
def languageListDescriptorSpec (locales : List localeRec) (wIndex : Nat) : List Nat :=
  (locales.getD (if wIndex < locales.length then wIndex else 0) ⟨0, []⟩).descriptor.getD 0 []

/-- The per-request call-trace discipline of the SETUP-phase dispatcher: a
stalled request has made no HAL calls, and every other request has made
exactly one transmit or receive call unless it was a descriptor request
whose responder assembled nothing. -/
def goodCalls (env : Env) (cc : deviceClass) (sup : dcdSetup) (r : csResult) : Prop :=
  (r.stage = dcdStage.stall → r.calls = []) ∧
  (r.stage ≠ dcdStage.stall →
    countTxRx r.calls = 1 ∨
      (countTxRx r.calls = 0 ∧
        (sup.bRequest = descRequestStandardGetDescriptor ∨
          sup.bRequest = descHIDRequestGetReport) ∧
        (match cc.id with
         | classID.cdcacm => (controlDescriptorCDCACM env cc.config sup).dxn = 0
         | classID.hid => (controlDescriptorHID env cc.config sup).dxn = 0)))

-- Arithmetic helpers for the SETUP codec proofs.

/-- Masking with 0xFF is reduction mod 256. -/
theorem and_255_eq_mod (u : Nat) : u &&& 255 = u % 256 := by
  have h := Nat.and_pow_two_sub_one_eq_mod u 8
  norm_num at h
  exact h

/-- Masking with 0xFFFF is reduction mod 65536. -/
theorem and_65535_eq_mod (u : Nat) : u &&& 65535 = u % 65536 := by
  have h := Nat.and_pow_two_sub_one_eq_mod u 16
  norm_num at h
  exact h

/-- A mask-then-shift equals shift-then-mask. -/
theorem and_shl_shr (u m k : Nat) : (u &&& (m <<< k)) >>> k = (u >>> k) &&& m := by
  apply Nat.eq_of_testBit_eq
  intro i
  simp [Nat.testBit_shiftRight, Nat.testBit_and, Nat.testBit_shiftLeft,
    Nat.add_comm k i]

/-- Bitwise or of values in disjoint ranges is addition. -/
theorem or_low_eq_add (a b k : Nat) (h : a < 2 ^ k) :
    a ||| b * 2 ^ k = a + b * 2 ^ k := by
  calc a ||| b * 2 ^ k = 2 ^ k * b ||| a := by rw [Nat.or_comm, Nat.mul_comm]
    _ = 2 ^ k * b + a := (Nat.mul_add_lt_is_or h b).symm
    _ = a + b * 2 ^ k := by ring

/-- The decoder `set` in arithmetic form. -/
theorem set_eq_arith (u : Nat) :
    dcdSetup.set u =
      ⟨u % 256, u / 2 ^ 8 % 256, u / 2 ^ 16 % 65536,
        u / 2 ^ 32 % 65536, u / 2 ^ 48 % 65536⟩ := by
  unfold dcdSetup.set
  have h8 : (0xFF00 : Nat) = 255 <<< 8 := by decide
  have h16 : (0xFFFF0000 : Nat) = 65535 <<< 16 := by decide
  have h32 : (0xFFFF00000000 : Nat) = 65535 <<< 32 := by decide
  have h48 : (0xFFFF000000000000 : Nat) = 65535 <<< 48 := by decide
  rw [h8, h16, h32, h48, and_shl_shr, and_shl_shr, and_shl_shr, and_shl_shr]
  simp only [dcdSetup.mk.injEq, Nat.shiftRight_eq_div_pow]
  refine ⟨and_255_eq_mod u, and_255_eq_mod _, and_65535_eq_mod _,
    and_65535_eq_mod _, and_65535_eq_mod _⟩

/-- The encoder `pack` in arithmetic form. -/
theorem pack_eq_arith (s : dcdSetup) :
    s.pack = s.bmRequestType % 256 + s.bRequest % 256 * 2 ^ 8 +
      s.wValue % 65536 * 2 ^ 16 + s.wIndex % 65536 * 2 ^ 32 +
      s.wLength % 65536 * 2 ^ 48 := by
  unfold dcdSetup.pack
  have e255 : (0xFF : Nat) = 255 := by norm_num
  have e65535 : (0xFFFF : Nat) = 65535 := by norm_num
  rw [e255, e65535, and_255_eq_mod, and_255_eq_mod, and_65535_eq_mod,
    and_65535_eq_mod, and_65535_eq_mod]
  simp only [Nat.shiftLeft_eq]
  have hm := Nat.mod_lt s.bmRequestType (y := 256) (by norm_num)
  have hb := Nat.mod_lt s.bRequest (y := 256) (by norm_num)
  have hv := Nat.mod_lt s.wValue (y := 65536) (by norm_num)
  have hi := Nat.mod_lt s.wIndex (y := 65536) (by norm_num)
  rw [or_low_eq_add _ _ 8 (by omega), or_low_eq_add _ _ 16 (by omega),
    or_low_eq_add _ _ 32 (by omega), or_low_eq_add _ _ 48 (by omega)]
  ring

/-- C1: for every current state s and requested state t, setState returns
ok exactly when the transition table accepts s to t (NotReady from any
state; Default from NotReady or Default; Addressed from Default; Configured
from Addressed, Configured, or Suspended; Suspended from Addressed,
Configured, or Suspended), writing t when it accepts and leaving s in place
when it rejects; setState(NotReady) always succeeds. -/
theorem C1_setState_transition_table :
    ∀ s t : dcdState,
      setState s t = (acceptsTransition s t,
        if acceptsTransition s t then t else s) ∧
      (setState s dcdState.notReady).1 = true := by
  decide

/-- C3: the SETUP packet codec is a bit-exact involution: `set` after `pack`
reproduces every field of a well-formed packet, `pack` after `set` restores
any 64-bit word, and the field layout of the packed word is bmRequestType in
bits 0..7, bRequest in bits 8..15, wValue in bits 16..31, wIndex in bits
32..47, wLength in bits 48..63. -/
theorem C3_pack_set_roundtrip :
    ∀ (s : dcdSetup) (u : Nat), s.wf → u < 2 ^ 64 →
      dcdSetup.set s.pack = s ∧ (dcdSetup.set u).pack = u ∧
      s.pack % 2 ^ 8 = s.bmRequestType ∧
      s.pack / 2 ^ 8 % 2 ^ 8 = s.bRequest ∧
      s.pack / 2 ^ 16 % 2 ^ 16 = s.wValue ∧
      s.pack / 2 ^ 32 % 2 ^ 16 = s.wIndex ∧
      s.pack / 2 ^ 48 % 2 ^ 16 = s.wLength := by
  intro s u hs hu
  obtain ⟨b1, b2, b3, b4, b5⟩ := s
  obtain ⟨w1, w2, w3, w4, w5⟩ := hs
  simp only [dcdSetup.wf] at w1 w2 w3 w4 w5
  have hp := pack_eq_arith ⟨b1, b2, b3, b4, b5⟩
  simp only at hp
  refine ⟨?_, ?_, ?_, ?_, ?_, ?_, ?_⟩
  · rw [set_eq_arith, hp]
    simp only [dcdSetup.mk.injEq]
    refine ⟨by omega, by omega, by omega, by omega, by omega⟩
  · rw [set_eq_arith]
    have hq := pack_eq_arith ⟨u % 256, u / 2 ^ 8 % 256, u / 2 ^ 16 % 65536,
      u / 2 ^ 32 % 65536, u / 2 ^ 48 % 65536⟩
    simp only at hq
    rw [hq]
    omega
  · rw [hp]; dsimp only; omega
  · rw [hp]; dsimp only; omega
  · rw [hp]; dsimp only; omega
  · rw [hp]; dsimp only; omega
  · rw [hp]; dsimp only; omega

/-- Witness for C3 at the SETUP packet 80 06 00 01 00 00 12 00 (the
GET_DESCRIPTOR Device request of the enumeration scenario) and the 64-bit
word 0x0012000001000680 it packs to. -/
theorem C3_pack_set_roundtrip_witness :
    dcdSetup.set (dcdSetup.pack ⟨0x80, 0x06, 0x0100, 0, 0x12⟩) =
      ⟨0x80, 0x06, 0x0100, 0, 0x12⟩ ∧
    (dcdSetup.set 0x0012000001000680).pack = 0x0012000001000680 := by
  exact ⟨(C3_pack_set_roundtrip ⟨0x80, 0x06, 0x0100, 0, 0x12⟩ 0
      (by decide) (by norm_num)).1,
    (C3_pack_set_roundtrip ⟨0, 0, 0, 0, 0⟩ 0x0012000001000680
      (by decide) (by norm_num)).2.1⟩

/-- The responder tail makes exactly one transmit when bytes were assembled
and none otherwise. -/
theorem countTxRx_descTransmitCalls (p : ptr) (w n : Nat) :
    countTxRx (descTransmitCalls p w n) = if n = 0 then 0 else 1 := by
  unfold descTransmitCalls
  rcases Nat.eq_zero_or_pos n with h | h
  · simp [h, countTxRx]
  · simp [Nat.pos_iff_ne_zero.mp h, h, countTxRx, isTxRx, List.filter]

/-- Transmit count of the CDC-ACM descriptor responder, in terms of its
assembled length. -/
theorem countTxRx_cdcacm (env : Env) (cfg : Int) (sup : dcdSetup) :
    countTxRx (controlDescriptorCDCACM env cfg sup).calls =
      if (controlDescriptorCDCACM env cfg sup).dxn = 0 then 0 else 1 := by
  simp [controlDescriptorCDCACM, countTxRx_descTransmitCalls]

/-- Transmit count of the HID descriptor responder, in terms of its
assembled length. -/
theorem countTxRx_hid (env : Env) (cfg : Int) (sup : dcdSetup) :
    countTxRx (controlDescriptorHID env cfg sup).calls =
      if (controlDescriptorHID env cfg sup).dxn = 0 then 0 else 1 := by
  simp [controlDescriptorHID, countTxRx_descTransmitCalls]

set_option maxHeartbeats 3200000 in
/-- Per-branch facts about the SETUP-phase dispatcher: a stalled request has
made no HAL calls at all, and every non-stalled request has made exactly one
transmit or receive call unless it was a descriptor request whose responder
assembled nothing. -/
theorem controlSetup_calls_spec (env : Env) (cc : deviceClass) (st : dcdState)
    (sup : dcdSetup) :
    goodCalls env cc sup (controlSetup env cc st sup) := by
  obtain ⟨cid, cfg⟩ := cc
  cases cid <;>
    (unfold controlSetup
     dsimp only
     split_ifs <;>
       (refine ⟨fun hs => ?_, fun hs => ?_⟩ <;>
        first
        | rfl
        | exact absurd rfl hs
        | (simp at hs; done)
        | (left; simp [countTxRx, isTxRx, List.filter]; done)
        | (rcases eq_or_ne (controlDescriptorCDCACM env cfg sup).dxn 0 with hd | hd <;>
            [(right
              refine ⟨by simp [countTxRx_cdcacm, hd], ?_, hd⟩
              first
              | exact Or.inl (by assumption)
              | exact Or.inr (by assumption));
             (left; simp [countTxRx_cdcacm, hd]; done)])
        | (rcases eq_or_ne (controlDescriptorHID env cfg sup).dxn 0 with hd | hd <;>
            [(right
              refine ⟨by simp [countTxRx_hid, hd], ?_, hd⟩
              first
              | exact Or.inl (by assumption)
              | exact Or.inr (by assumption));
             (left; simp [countTxRx_hid, hd]; done)])))

/-- C2 counterexample: under the CDC-ACM class, GET_DESCRIPTOR for the
Other-Speed Configuration descriptor type (SETUP 80 06 00 07 00 00 FF 00)
returns DataIn, not Stall, yet the dispatcher has made no control_transmit
and no control_receive call, contradicting the claim that every non-Stall
return has made exactly one such call. -/
theorem C2_counterexample :
    (controlSetup envW ⟨classID.cdcacm, 1⟩ dcdState.addressed
        ⟨0x80, 0x06, 0x0700, 0, 0xFF⟩).stage = dcdStage.dataIn ∧
    countTxRx (controlSetup envW ⟨classID.cdcacm, 1⟩ dcdState.addressed
        ⟨0x80, 0x06, 0x0700, 0, 0xFF⟩).calls = 0 := by
  constructor <;> rfl

/-- C2 (amended): after every controlSetup return other than Stall, at most
one HAL call among control_transmit and control_receive has been made, and
exactly one unless the request was a descriptor request (standard
GET_DESCRIPTOR, or the interface GET [HID] REPORT descriptor path) whose
responder assembled an empty descriptor (dxn = 0) - for example
GET_DESCRIPTOR for the Other-Speed Configuration type - in which case no
such call occurs.  SET_CONFIGURATION always arms exactly one receive, the
bound class id being CDC-ACM or HID. -/
theorem C2_amended (env : Env) (cc : deviceClass) (st : dcdState)
    (sup : dcdSetup) :
    (controlSetup env cc st sup).stage ≠ dcdStage.stall →
    countTxRx (controlSetup env cc st sup).calls = 1 ∨
      (countTxRx (controlSetup env cc st sup).calls = 0 ∧
        (sup.bRequest = descRequestStandardGetDescriptor ∨
          sup.bRequest = descHIDRequestGetReport) ∧
        (match cc.id with
         | classID.cdcacm => (controlDescriptorCDCACM env cc.config sup).dxn = 0
         | classID.hid => (controlDescriptorHID env cc.config sup).dxn = 0)) :=
  (controlSetup_calls_spec env cc st sup).2

/-- Witness for C2 at the SET_ADDRESS request 00 05 05 00 00 00 00 00: the
stage is StatusOut and exactly one receive call was made. -/
theorem C2_amended_witness :
    countTxRx (controlSetup envW ⟨classID.cdcacm, 1⟩ dcdState.default
        ⟨0x00, 0x05, 5, 0, 0⟩).calls = 1 ∨
      (countTxRx (controlSetup envW ⟨classID.cdcacm, 1⟩ dcdState.default
          ⟨0x00, 0x05, 5, 0, 0⟩).calls = 0 ∧
        ((⟨0x00, 0x05, 5, 0, 0⟩ : dcdSetup).bRequest =
            descRequestStandardGetDescriptor ∨
          (⟨0x00, 0x05, 5, 0, 0⟩ : dcdSetup).bRequest =
            descHIDRequestGetReport) ∧
        (match (⟨classID.cdcacm, 1⟩ : deviceClass).id with
         | classID.cdcacm =>
             (controlDescriptorCDCACM envW (1 : Int) ⟨0x00, 0x05, 5, 0, 0⟩).dxn = 0
         | classID.hid =>
             (controlDescriptorHID envW (1 : Int) ⟨0x00, 0x05, 5, 0, 0⟩).dxn = 0)) :=
  C2_amended envW ⟨classID.cdcacm, 1⟩ dcdState.default ⟨0x00, 0x05, 5, 0, 0⟩
    (by decide)

/-- C6: every Vendor-type request falls through the dispatcher to Stall,
and whenever the dispatcher returns Stall the event pump makes exactly one
HAL call, control_stall(true, d) with d the direction bit of the SETUP
packet. -/
theorem C6_stall_exactly_once (env : Env) (d : DCD) (sup : dcdSetup)
    (mask : Nat) :
    (sup.bmRequestType &&& descRequestTypeTypeMsk = descRequestTypeTypeVendor →
      (controlSetup env d.cc d.st sup).stage = dcdStage.stall) ∧
    ((controlSetup env d.cc d.st sup).stage = dcdStage.stall →
      (event env d ⟨dcdEventControlSetup, sup, mask⟩).2 =
        [halCall.controlStall true sup.direction]) := by
  constructor
  · intro hv
    obtain ⟨cid, cfg⟩ := d.cc
    cases cid <;>
      · unfold controlSetup
        dsimp only
        rw [hv]
        norm_num
  · intro hs
    have hcalls := (controlSetup_calls_spec env d.cc d.st sup).1 hs
    unfold event
    norm_num [hs, hcalls]

/-- Witness for C6 at the Vendor IN request C0 FF 00 00 00 00 00 00: the
dispatcher stalls and the event pump emits control_stall(true, 1). -/
theorem C6_stall_exactly_once_witness :
    (controlSetup envW dW.cc dW.st ⟨0xC0, 0xFF, 0, 0, 0⟩).stage =
      dcdStage.stall ∧
    (event envW dW ⟨dcdEventControlSetup, ⟨0xC0, 0xFF, 0, 0, 0⟩, 0⟩).2 =
      [halCall.controlStall true 1] := by
  have h := C6_stall_exactly_once envW dW ⟨0xC0, 0xFF, 0, 0, 0⟩ 0
  have h1 := h.1 (by decide)
  have h2 := h.2 h1
  have hdir : (⟨0xC0, 0xFF, 0, 0, 0⟩ : dcdSetup).direction = 1 := rfl
  rw [hdir] at h2
  exact ⟨h1, h2⟩

/-- C10: a SET_CONFIGURATION request arriving in state Default leaves the
state at Default (the internally emitted DeviceConfiguration transition to
Configured is rejected), yet the dispatcher still stores the normalised
config value, still fires the bound class configure callbacks, still arms
the zero-length status receive, and still returns StatusOut. -/
theorem C10_set_configuration_in_default (env : Env) (cc : deviceClass)
    (sup : dcdSetup) (hbm : sup.bmRequestType = 0)
    (hbr : sup.bRequest = descRequestStandardSetConfiguration) :
    (controlSetup env cc dcdState.default sup).st = dcdState.default ∧
    (controlSetup env cc dcdState.default sup).stage = dcdStage.statusOut ∧
    (controlSetup env cc dcdState.default sup).cc.id = cc.id ∧
    (controlSetup env cc dcdState.default sup).cc.config =
      (if (sup.wValue : Int) = 0 ∨ (sup.wValue : Int) > (dcdCount env : Int)
        then 1 else (sup.wValue : Int)) ∧
    (controlSetup env cc dcdState.default sup).calls =
      (match cc.id with
       | classID.cdcacm =>
           [halCall.uartConfigure, halCall.controlReceive ptr.null 0 false]
       | classID.hid =>
           [halCall.serialConfigure, halCall.keyboardConfigure,
             halCall.mouseConfigure, halCall.joystickConfigure,
             halCall.controlReceive ptr.null 0 false]) := by
  obtain ⟨cid, cfg⟩ := cc
  cases cid <;>
    · unfold controlSetup
      dsimp only
      simp only [hbm, hbr]
      norm_num [setState]
      all_goals decide

/-- Witness for C10: SET_CONFIGURATION with wValue 1 in state Default under
the CDC-ACM binding. -/
theorem C10_set_configuration_in_default_witness :
    (controlSetup envW ⟨classID.cdcacm, 1⟩ dcdState.default
        ⟨0, 0x09, 1, 0, 0⟩).st = dcdState.default ∧
    (controlSetup envW ⟨classID.cdcacm, 1⟩ dcdState.default
        ⟨0, 0x09, 1, 0, 0⟩).stage = dcdStage.statusOut ∧
    (controlSetup envW ⟨classID.cdcacm, 1⟩ dcdState.default
        ⟨0, 0x09, 1, 0, 0⟩).cc.id = (⟨classID.cdcacm, 1⟩ : deviceClass).id ∧
    (controlSetup envW ⟨classID.cdcacm, 1⟩ dcdState.default
        ⟨0, 0x09, 1, 0, 0⟩).cc.config =
      (if ((1 : Nat) : Int) = 0 ∨ ((1 : Nat) : Int) > (dcdCount envW : Int)
        then 1 else ((1 : Nat) : Int)) ∧
    (controlSetup envW ⟨classID.cdcacm, 1⟩ dcdState.default
        ⟨0, 0x09, 1, 0, 0⟩).calls =
      (match (⟨classID.cdcacm, 1⟩ : deviceClass).id with
       | classID.cdcacm =>
           [halCall.uartConfigure, halCall.controlReceive ptr.null 0 false]
       | classID.hid =>
           [halCall.serialConfigure, halCall.keyboardConfigure,
             halCall.mouseConfigure, halCall.joystickConfigure,
             halCall.controlReceive ptr.null 0 false]) :=
  C10_set_configuration_in_default envW ⟨classID.cdcacm, 1⟩ ⟨0, 0x09, 1, 0, 0⟩
    rfl rfl

/-- C9: on completion of an HID SET_REPORT addressed to the Serial
interface, enable_sof(true, descHIDInterfaceCount) is invoked exactly when
the descriptor type byte is String, wLength is at least 4, and the first
four scratch bytes form the little-endian u32 0x68C245A9; otherwise the
completion makes no HAL call. -/
theorem C9_sof_activation (env : Env) (cc : deviceClass) (stp : dcdSetup)
    (hcls : cc.id = classID.hid) (hbm : stp.bmRequestType = 0x21)
    (hbr : stp.bRequest = descHIDRequestSetReport)
    (hwi : stp.wIndex = env.descHIDInterfaceSerial)
    (hne : env.descHIDInterfaceKeyboard ≠ env.descHIDInterfaceSerial) :
    controlComplete env cc stp =
      (if stp.wValue >>> 8 = descTypeString ∧ 4 ≤ stp.wLength ∧
          packU32 (env.descHID (cc.config - 1)).cx = 0x68C245A9 then
        [halCall.enableSOF true env.descHIDInterfaceCount]
      else []) := by
  obtain ⟨cid, cfg⟩ := cc
  dsimp only at hcls
  subst hcls
  unfold controlComplete
  dsimp only
  simp only [hbm, hbr, hwi]
  norm_num [show (31 : Nat) ||| 128 = 159 from by decide,
    show (33 : Nat) &&& 96 = 32 from by decide,
    show (33 : Nat) &&& 159 = 1 from by decide, Ne.symm hne]
  split_ifs <;> simp_all

/-- Witness for C9: SET_REPORT completion 21 09 00 03 02 00 04 00 on the
Serial interface with scratch bytes A9 45 C2 68 enables SOF notifications. -/
theorem C9_sof_activation_witness :
    controlComplete envW ⟨classID.hid, 1⟩ ⟨0x21, 0x09, 0x0300, 2, 4⟩ =
      (if (⟨0x21, 0x09, 0x0300, 2, 4⟩ : dcdSetup).wValue >>> 8 = descTypeString ∧
          4 ≤ (⟨0x21, 0x09, 0x0300, 2, 4⟩ : dcdSetup).wLength ∧
          packU32 (envW.descHID ((1 : Int) - 1)).cx = 0x68C245A9 then
        [halCall.enableSOF true envW.descHIDInterfaceCount]
      else []) :=
  C9_sof_activation envW ⟨classID.hid, 1⟩ ⟨0x21, 0x09, 0x0300, 2, 4⟩
    rfl rfl rfl rfl (by decide)

-- Event-pump lemmas for the in-flight SETUP packet invariant.

/-- The stored SETUP packet after one event: ControlSetup stores the event
packet, ControlComplete clears it, every other event leaves it alone. -/
theorem event_setup_after (env : Env) (d : DCD) (e : dcdEvent) :
    (event env d e).1.setup =
      (if e.id = dcdEventControlSetup then e.setup
       else if e.id = dcdEventControlComplete then dcdSetup.zero
       else d.setup) := by
  unfold event
  split_ifs <;> first | (simp_all; done) | (simp_all; split <;> rfl)

/-- Activity bookkeeping for the in-flight SETUP packet: starting from a
controller state whose stored packet agrees with the activity flag a, and
assuming every delivered ControlSetup event carries a non-zero packet, the
stored packet is non-zero exactly when a transfer is active. -/
theorem runEvents_active (env : Env) :
    ∀ (evs : List dcdEvent) (d : DCD) (a : Bool),
      (d.setup ≠ dcdSetup.zero ↔ a = true) →
      (∀ e ∈ evs, e.id = dcdEventControlSetup → e.setup ≠ dcdSetup.zero) →
      ((runEvents env d evs).setup ≠ dcdSetup.zero ↔
        activeAfter a evs = true) := by
  intro evs
  induction evs with
  | nil =>
      intro d a h _
      simpa [runEvents, activeAfter] using h
  | cons e rest ih =>
      intro d a h hne
      show (runEvents env (event env d e).1 rest).setup ≠ dcdSetup.zero ↔
        activeAfter (if e.id = dcdEventControlSetup then true
          else if e.id = dcdEventControlComplete then false else a) rest = true
      apply ih
      · rw [event_setup_after]
        by_cases h8 : e.id = dcdEventControlSetup
        · simp only [h8, if_pos rfl]
          have := hne e (List.mem_cons_self e rest) h8
          simp [this]
        · by_cases h9 : e.id = dcdEventControlComplete
          · simp [h8, h9]
          · simp only [if_neg h8, if_neg h9]
            exact h
      · intro e2 he2 hid2
        exact hne e2 (List.mem_cons_of_mem e he2) hid2

/-- C5 counterexample: a ControlSetup event whose packet is the zero packet
opens a transfer (the dispatcher runs and the activity interval begins) yet
leaves the stored SETUP packet zero, so the stored packet being non-zero is
not equivalent to a transfer being active. -/
theorem C5_counterexample :
    ¬(((runEvents envW dW [⟨dcdEventControlSetup, dcdSetup.zero, 0⟩]).setup ≠
          dcdSetup.zero) ↔
      activeAfter false [⟨dcdEventControlSetup, dcdSetup.zero, 0⟩] = true) := by
  decide

/-- C5 (amended): provided every delivered ControlSetup event carries a
non-zero SETUP packet, the stored in-flight packet of a controller that
starts with no transfer in flight is non-zero exactly while a control
transfer is active (between ControlSetup receipt and ControlComplete
processing, Stall included), and processing a ControlComplete event always
clears the stored packet to the zero packet, whether or not any completion
work ran. -/
theorem C5_amended (env : Env) (evs : List dcdEvent) (d : DCD)
    (h0 : d.setup = dcdSetup.zero)
    (hne : ∀ e ∈ evs, e.id = dcdEventControlSetup → e.setup ≠ dcdSetup.zero) :
    (((runEvents env d evs).setup ≠ dcdSetup.zero) ↔
      activeAfter false evs = true) ∧
    (∀ (d2 : DCD) (e : dcdEvent), e.id = dcdEventControlComplete →
      (event env d2 e).1.setup = dcdSetup.zero) := by
  constructor
  · exact runEvents_active env evs d false (by simp [h0]) hne
  · intro d2 e he
    rw [event_setup_after]
    have h8 : e.id ≠ dcdEventControlSetup := by simp [he]
    simp [he, h8]

/-- Witness for C5: after a single ControlSetup event carrying the non-zero
Vendor packet C0 FF 00 00 00 00 00 00, the stored packet is non-zero and a
transfer is active. -/
theorem C5_amended_witness :
    (((runEvents envW dW [⟨dcdEventControlSetup, ⟨0xC0, 0xFF, 0, 0, 0⟩, 0⟩]).setup ≠
        dcdSetup.zero) ↔
      activeAfter false [⟨dcdEventControlSetup, ⟨0xC0, 0xFF, 0, 0, 0⟩, 0⟩] = true) ∧
    (∀ (d2 : DCD) (e : dcdEvent), e.id = dcdEventControlComplete →
      (event envW d2 e).1.setup = dcdSetup.zero) :=
  C5_amended envW [⟨dcdEventControlSetup, ⟨0xC0, 0xFF, 0, 0, 0⟩, 0⟩] dW
    rfl (by decide)

/-- The reservation loop of initDCD finds exactly the first slot whose core
reference is unset and rewrites the pool at that position. -/
theorem initDCDLoop_eq (port : Nat) (cls : deviceClass) :
    ∀ (slots : List dcdSlot) (i : Nat),
      initDCDLoop port cls slots i =
        (match firstFreeIdx slots with
         | none => none
         | some j => some (i + j, slots.set j (initializedSlot port cls (i + j)))) := by
  intro slots
  induction slots with
  | nil => intro i; rfl
  | cons s rest ih =>
      intro i
      unfold initDCDLoop firstFreeIdx
      by_cases hc : s.core = none
      · simp [hc]
      · rw [if_neg hc, if_neg hc, ih (i + 1)]
        cases hff : firstFreeIdx rest with
        | none => rfl
        | some j =>
            have hadd : i + 1 + j = i + (j + 1) := by omega
            simp [hff, hadd]

/-- C7: initDCD behaves exactly as the claim describes: Invalid when no
device controllers are configured or when a CDC-ACM binding has a zero or
out-of-range config index; Busy with no slot modified once every slot has a
non-nil core reference; otherwise the first free slot is initialized (HAL
allocated, core, port, class and id assigned, state NotReady) and returned
with OK. -/
theorem C7_initDCD_matches_spec (env : Env) (pool : List dcdSlot) (port : Nat)
    (speed : Nat) (cls : deviceClass) :
    initDCD env pool port speed cls = initDCDSpec env pool port speed cls := by
  unfold initDCD initDCDSpec
  split_ifs
  · rfl
  · rfl
  · rw [initDCDLoop_eq]
    cases hff : firstFreeIdx pool with
    | none => rfl
    | some i => simp [hff]

/-- C8 counterexample: with two locales and wIndex = 5 (out of range), the
responder serves locale[0].descriptor[0], not the descriptor at
locale[min(wIndex, len(locale)-1)] = locale[1] that the claim names; the
two language descriptors differ. -/
theorem C8_counterexample :
    (controlDescriptorCDCACM env8 1 ⟨0x80, 0x06, 0x0300, 5, 0xFF⟩).dx ≠
      ((env8.descCDCACM 0).locale.getD
        (min 5 ((env8.descCDCACM 0).locale.length - 1)) ⟨0, []⟩).descriptor.getD
          0 [] := by
  decide

/-- C8 (amended): for every language-list string request (string index 0)
under either class, the responder serves locale[code].descriptor[0] where
code = wIndex when wIndex is within the locale table and 0 otherwise (the
source clamps an out-of-range language index to 0, not to the last
locale): the assembled length is the descriptor length byte and the
transmitted bytes are that prefix of the descriptor. -/
theorem C8_amended (env : Env) (cfg : Int) (sup : dcdSetup)
    (hv : sup.wValue >>> 8 = descTypeString) (h0 : sup.wValue % 256 = 0) :
    ((env.descCDCACM (cfg - 1)).locale ≠ [] →
      (controlDescriptorCDCACM env cfg sup).dxn =
        (languageListDescriptorSpec (env.descCDCACM (cfg - 1)).locale
          sup.wIndex).getD 0 0 ∧
      (controlDescriptorCDCACM env cfg sup).dx =
        (languageListDescriptorSpec (env.descCDCACM (cfg - 1)).locale
          sup.wIndex).take
          ((languageListDescriptorSpec (env.descCDCACM (cfg - 1)).locale
            sup.wIndex).getD 0 0)) ∧
    ((env.descHID (cfg - 1)).locale ≠ [] →
      (controlDescriptorHID env cfg sup).dxn =
        (languageListDescriptorSpec (env.descHID (cfg - 1)).locale
          sup.wIndex).getD 0 0 ∧
      (controlDescriptorHID env cfg sup).dx =
        (languageListDescriptorSpec (env.descHID (cfg - 1)).locale
          sup.wIndex).take
          ((languageListDescriptorSpec (env.descHID (cfg - 1)).locale
            sup.wIndex).getD 0 0)) := by
  have key : ∀ (locales : List localeRec) (src : Nat → List Nat),
      stringDescriptorFor locales src sup.wValue sup.wIndex =
        languageListDescriptorSpec locales sup.wIndex := by
    intro L src
    unfold stringDescriptorFor languageListDescriptorSpec
    rw [if_pos h0, h0]
    rcases Nat.lt_or_ge sup.wIndex L.length with hlt | hge
    · rw [if_neg (Nat.not_le.mpr hlt), if_pos hlt]
    · rw [if_pos hge, if_neg (Nat.not_lt.mpr hge)]
  constructor
  · intro hloc
    unfold controlDescriptorCDCACM assembleCDCACM
    dsimp only
    rw [hv]
    norm_num [List.length_eq_zero, hloc, key]
  · intro hloc
    unfold controlDescriptorHID assembleHID
    dsimp only
    rw [hv]
    norm_num [List.length_eq_zero, hloc, key]

/-- Witness for C8 at the language query 80 06 00 03 00 00 FF 00 under both
class bindings of the sample environment. -/
theorem C8_amended_witness :
    ((controlDescriptorCDCACM envW 1 ⟨0x80, 0x06, 0x0300, 0, 0xFF⟩).dxn =
        (languageListDescriptorSpec (envW.descCDCACM ((1 : Int) - 1)).locale
          0).getD 0 0 ∧
      (controlDescriptorCDCACM envW 1 ⟨0x80, 0x06, 0x0300, 0, 0xFF⟩).dx =
        (languageListDescriptorSpec (envW.descCDCACM ((1 : Int) - 1)).locale
          0).take
          ((languageListDescriptorSpec (envW.descCDCACM ((1 : Int) - 1)).locale
            0).getD 0 0)) ∧
    ((controlDescriptorHID envW 1 ⟨0x80, 0x06, 0x0300, 0, 0xFF⟩).dxn =
        (languageListDescriptorSpec (envW.descHID ((1 : Int) - 1)).locale
          0).getD 0 0 ∧
      (controlDescriptorHID envW 1 ⟨0x80, 0x06, 0x0300, 0, 0xFF⟩).dx =
        (languageListDescriptorSpec (envW.descHID ((1 : Int) - 1)).locale
          0).take
          ((languageListDescriptorSpec (envW.descHID ((1 : Int) - 1)).locale
            0).getD 0 0)) :=
  ⟨(C8_amended envW 1 ⟨0x80, 0x06, 0x0300, 0, 0xFF⟩ rfl rfl).1 (by decide),
    (C8_amended envW 1 ⟨0x80, 0x06, 0x0300, 0, 0xFF⟩ rfl rfl).2 (by decide)⟩

/-- C4: evaluation at the failing input.  For GET_DESCRIPTOR Device with
wLength = 0x0105 = 261 under CDC-ACM, the responder assembles the 18-byte
device descriptor but clamps against uint8(wLength) = 5 and transmits only
5 bytes, although min(dxn, wLength) = 18: the claimed length law fails for
wLength of 256 and above. -/
theorem C4_uint8_clamp_eval :
    (controlDescriptorCDCACM envW 1 ⟨0x80, 0x06, 0x0100, 0, 0x0105⟩).dxn = 18 ∧
    (controlDescriptorCDCACM envW 1 ⟨0x80, 0x06, 0x0100, 0, 0x0105⟩).calls =
      [halCall.flushCache (ptr.cdcDx 0) 5,
        halCall.controlTransmit (ptr.cdcDx 0) 5 false] ∧
    min 18 0x0105 = 18 := by
  refine ⟨rfl, rfl, by norm_num⟩
